import Mathlib

/-!
Shallow embedding of the tremor-tracking app's signal-processing and
trend-analysis core (`signalProcessing`, `analysis`, `storage`,
`useSensors`/`useRecording`), translated from the TypeScript sources.
JavaScript numbers are modelled as rationals (`Rat`); the only
irrational operation, `Math.sqrt`, is passed in as an explicit function
parameter where the source calls it, and every comparison that the
source performs on a possibly non-finite IEEE value (division by zero
producing NaN or ±Infinity) is translated by an explicit case split on
the zero denominator, with the IEEE outcome of each branch spelled out.
-/

namespace Tremor

/-- JS `arr.reduce((sum, val) => sum + val, 0)`: a left fold of addition. -/
def sumRat (l : List Rat) : Rat := l.foldl (· + ·) 0

/-- JS `Math.round x` and `x.toFixed(0)` for `x ≥ 0`: round to nearest
integer, ties picking the larger integer (ECMA-262 `Number.prototype.toFixed`
step "if there are two such n, pick the larger n"; `Math.round` rounds
half toward +∞, which is the same function). -/
def jsRound (x : Rat) : Int := ⌊x + 1/2⌋

/-- One sensor's per-axis sample arrays (`SensorData` in `types/index.ts`). -/
structure SensorData where
  x : List Rat
  y : List Rat
  z : List Rat
deriving DecidableEq

/-- Optional user annotation (`RecordingContext`); all fields optional in TS. -/
structure RecordingContext where
  caffeine : Option Bool
  sleepDeprived : Option Bool
  stress : Option Bool
  notes : Option String
deriving DecidableEq

/-- Derived statistics (`RecordingStats`). -/
structure RecordingStats where
  meanAmplitude : Rat
  variability : Rat
  peakAmplitude : Rat
deriving DecidableEq

/-- A persisted recording (`RecordingSession`); timestamps are epoch milliseconds. -/
structure RecordingSession where
  id : String
  timestamp : Int
  duration : Rat
  accelerometer : SensorData
  gyroscope : SensorData
  magnitude : List Rat
  stats : RecordingStats
  context : Option RecordingContext
deriving DecidableEq

/-- `StabilityClassification.type` values; `variable` is a Lean keyword, hence `variable'`. -/
inductive StabilityType where
  | stable
  | variable'
  | increasing
  | irregular
deriving DecidableEq

/-- `StabilityClassification` from `types/index.ts`. -/
structure StabilityClassification where
  type : StabilityType
  confidence : Rat
deriving DecidableEq

/-- One element of `TrendAnalysis.correlations`. -/
structure CorrelationEntry where
  context : String
  impact : String
  description : String
deriving DecidableEq

/-- `TrendAnalysis` from `types/index.ts`; the score is integral in every branch. -/
structure TrendAnalysis where
  stabilityScore : Int
  classification : StabilityClassification
  summary : String
  anomalies : List String
  correlations : List CorrelationEntry
deriving DecidableEq

/-- Trend direction returned by `detectTrend`. -/
inductive Trend where
  | stable
  | increasing
  | decreasing
deriving DecidableEq

/-! ## signalProcessing.ts -/

/-- `calculateMagnitude`: `Math.sqrt(x*x + y*y + z*z)`; `Math.sqrt` is the
explicit parameter `sq` since the square root of a rational is not rational. -/
def calculateMagnitude (sq : Rat → Rat) (x y z : Rat) : Rat :=
  sq (x * x + y * y + z * z)

/-- `calculateMagnitudeArray`: magnitudes over the first
`min(x.length, y.length, z.length)` indices. -/
def calculateMagnitudeArray (sq : Rat → Rat) (data : SensorData) : List Rat :=
  let length := min (min data.x.length data.y.length) data.z.length
  (List.range length).map fun i =>
    calculateMagnitude sq (data.x.getD i 0) (data.y.getD i 0) (data.z.getD i 0)

/-- `calculateTremorAmplitude`: mean absolute deviation from the mean; 0 on empty input. -/
def calculateTremorAmplitude (magnitude : List Rat) : Rat :=
  if magnitude.length = 0 then 0
  else
    let mean := sumRat magnitude / magnitude.length
    let deviations := magnitude.map fun val => |val - mean|
    sumRat deviations / deviations.length

/-- The population variance computed inside `calculateVariability`
(`reduce((sum, val) => sum + Math.pow(val - mean, 2), 0) / magnitude.length`). -/
def calculateVariance (magnitude : List Rat) : Rat :=
  let mean := sumRat magnitude / magnitude.length
  sumRat (magnitude.map fun val => (val - mean) ^ 2) / magnitude.length

/-- `calculateVariability`: population standard deviation `Math.sqrt(variance)`;
0 on empty input. -/
def calculateVariability (sq : Rat → Rat) (magnitude : List Rat) : Rat :=
  if magnitude.length = 0 then 0
  else sq (calculateVariance magnitude)

/-- `calculatePeakAmplitude`: maximum absolute deviation from the mean; 0 on empty input. -/
def calculatePeakAmplitude (magnitude : List Rat) : Rat :=
  if magnitude.length = 0 then 0
  else
    let mean := sumRat magnitude / magnitude.length
    let deviations := magnitude.map fun val => |val - mean|
    deviations.foldl max 0

/-- `calculateStats`: bundles the three statistics. -/
def calculateStats (sq : Rat → Rat) (magnitude : List Rat) : RecordingStats :=
  { meanAmplitude := calculateTremorAmplitude magnitude
    variability := calculateVariability sq magnitude
    peakAmplitude := calculatePeakAmplitude magnitude }

/-- `smoothData`: centered moving average; the JS loop body is
`start = max(0, i - half)`, `end = min(data.length, i + half + 1)`,
`window = data.slice(start, end)`, averaged over `window.length`.
Natural-number subtraction `i - halfWindow` is exactly `Math.max(0, i - halfWindow)`. -/
def smoothData (data : List Rat) (windowSize : Nat) : List Rat :=
  if data.length = 0 then []
  else if windowSize ≥ data.length then data
  else
    let halfWindow := windowSize / 2
    (List.range data.length).map fun i =>
      let start := i - halfWindow
      let stop := min data.length (i + halfWindow + 1)
      let window := (data.drop start).take (stop - start)
      sumRat window / window.length

/-- JS `Math.abs(num / den) > threshold` under IEEE semantics: when `den = 0`
the quotient is NaN for `num = 0` (every comparison false) and ±Infinity for
`num ≠ 0` (absolute value +Infinity, greater than every finite threshold). -/
def jsAbsDivGt (num den threshold : Rat) : Bool :=
  if den = 0 then num ≠ 0
  else |num / den| > threshold

/-- `detectAnomalies`: indices whose z-score `|val - mean| / stdDev` exceeds
the threshold; the division by a zero standard deviation follows `jsAbsDivGt`. -/
def detectAnomalies (sq : Rat → Rat) (magnitude : List Rat) (threshold : Rat) : List Nat :=
  if magnitude.length = 0 then []
  else
    let mean := sumRat magnitude / magnitude.length
    let stdDev := calculateVariability sq magnitude
    (magnitude.enum.filter fun p => jsAbsDivGt (p.2 - mean) stdDev threshold).map fun p => p.1

/-! ## analysis.ts -/

/-- The ratio `currentVariability / (baselineVariability || 1)`: JS `|| 1`
replaces a zero (falsy) baseline by 1. -/
def ratioOf (currentVariability baselineVariability : Rat) : Rat :=
  currentVariability / (if baselineVariability = 0 then 1 else baselineVariability)

/-- `classifyStability`: the ordered rule cascade over the variability ratio. -/
def classifyStability (currentVariability baselineVariability : Rat)
    (trend : Trend) : StabilityClassification :=
  if ratioOf currentVariability baselineVariability < 11/10 ∧ trend = Trend.stable then
    { type := .stable, confidence := 9/10 }
  else if ratioOf currentVariability baselineVariability > 3/2 ∨ trend = Trend.increasing then
    { type := .increasing, confidence := 8/10 }
  else if ratioOf currentVariability baselineVariability > 6/5 then
    { type := .variable', confidence := 7/10 }
  else { type := .irregular, confidence := 6/10 }

/-- `calculateBaseline`: median of the sessions' variabilities
(ascending sort; even count averages the two middle values); 0 on empty input. -/
def calculateBaseline (sessions : List RecordingSession) : Rat :=
  if sessions.length = 0 then 0
  else
    let variabilities := sessions.map fun s => s.stats.variability
    let sorted := variabilities.mergeSort (· ≤ ·)
    let medianIndex := sorted.length / 2
    if sorted.length % 2 = 0 then
      (sorted.getD (medianIndex - 1) 0 + sorted.getD medianIndex 0) / 2
    else sorted.getD medianIndex 0

/-- The sessions of the last `days` days sorted ascending by timestamp
(`filter(s => s.timestamp >= cutoff).sort((a, b) => a.timestamp - b.timestamp)`). -/
def recentWindowAsc (now days : Int) (sessions : List RecordingSession) :
    List RecordingSession :=
  let cutoff := now - days * 24 * 60 * 60 * 1000
  (sessions.filter fun s => s.timestamp ≥ cutoff).mergeSort
    fun a b => a.timestamp ≤ b.timestamp

/-- `detectTrend`: stable on fewer than 3 sessions (globally or within the
window); otherwise compares the two halves (split at `floor(n/2)`) of the
time-ascending recent variabilities.  The JS relative change
`(secondAvg - firstAvg) / firstAvg` at `firstAvg = 0` is ±Infinity or NaN;
the explicit `firstAvg = 0` split reproduces those comparisons. -/
def detectTrend (now : Int) (sessions : List RecordingSession) (days : Int) : Trend :=
  if sessions.length < 3 then .stable
  else
    let recent := recentWindowAsc now days sessions
    if recent.length < 3 then .stable
    else
      let variabilities := recent.map fun s => s.stats.variability
      let firstHalf := variabilities.take (variabilities.length / 2)
      let secondHalf := variabilities.drop (variabilities.length / 2)
      let firstAvg := sumRat firstHalf / firstHalf.length
      let secondAvg := sumRat secondHalf / secondHalf.length
      if firstAvg = 0 then
        if secondAvg > 0 then .increasing
        else if secondAvg < 0 then .decreasing
        else .stable
      else
        let change := (secondAvg - firstAvg) / firstAvg
        if change > 15/100 then .increasing
        else if change < -(15/100) then .decreasing
        else .stable

/-- The recent (last 7 days) sessions sorted descending by timestamp, as
computed inside `generateTrendAnalysis`
(`filter(s => s.timestamp >= Date.now() - 7*24*60*60*1000).sort((a, b) => b.timestamp - a.timestamp)`). -/
def recentWindowDesc (now : Int) (sessions : List RecordingSession) :
    List RecordingSession :=
  (sessions.filter fun s => s.timestamp ≥ now - 7 * 24 * 60 * 60 * 1000).mergeSort
    fun a b => b.timestamp ≤ a.timestamp

/-- JS truthiness of `s.context?.caffeine`. -/
def ctxCaffeine (s : RecordingSession) : Bool :=
  ((s.context.bind fun c => c.caffeine).getD false)

/-- JS truthiness of `s.context?.stress`. -/
def ctxStress (s : RecordingSession) : Bool :=
  ((s.context.bind fun c => c.stress).getD false)

/-- Group-average variability `reduce((sum, s) => sum + s.stats.variability, 0) / length`. -/
def averageVariability (sessions : List RecordingSession) : Rat :=
  sumRat (sessions.map fun s => s.stats.variability) / sessions.length

/-- The correlation block of `generateTrendAnalysis`, which the source spells
out twice (for `Caffeine` with prefix "Sessions with caffeine" and for
`Stress` with prefix "Sessions marked as stressful"): a correlation entry is
produced when both groups have more than 2 sessions and
`|diff| > 0.1` for `diff = (flaggedAvg - unflaggedAvg) / unflaggedAvg`.
At `unflaggedAvg = 0` the JS quotient is NaN (`flaggedAvg = 0`, comparison
false, no entry) or ±Infinity (entry with `Math.abs(diff*100).toFixed(0)`
rendering as "Infinity"); the explicit zero split reproduces this. -/
def contextCorrelation (tag descPre : String)
    (flagged unflagged : List RecordingSession) : List CorrelationEntry :=
  if flagged.length > 2 ∧ unflagged.length > 2 then
    let flaggedAvg := averageVariability flagged
    let unflaggedAvg := averageVariability unflagged
    if unflaggedAvg = 0 then
      if flaggedAvg = 0 then []
      else
        [{ context := tag
           impact := if flaggedAvg > 0 then "negative" else "positive"
           description := descPre ++ " show Infinity% " ++
             (if flaggedAvg > 0 then "higher" else "lower") ++ " variability." }]
    else
      let diff := (flaggedAvg - unflaggedAvg) / unflaggedAvg
      if |diff| > 1/10 then
        let pct := jsRound |diff * 100|
        [{ context := tag
           impact := if diff > 0 then "negative" else "positive"
           description := descPre ++ " show " ++ toString pct ++ "% " ++
             (if diff > 0 then "higher" else "lower") ++ " variability." }]
      else []
  else []

/-- `generateTrendAnalysis`.  The `now` parameter stands for `Date.now()` and
`sq` for `Math.sqrt`.  The source reads `recentSessions[0].stats` without
checking that the 7-day window is non-empty; in TS, `recentSessions[0]` is
then `undefined` and the property access throws a `TypeError`, so the
embedding returns `none` on that path (fallible code returns `Option`). -/
def generateTrendAnalysis (sq : Rat → Rat) (now : Int)
    (sessions : List RecordingSession) : Option TrendAnalysis :=
  if sessions.length = 0 then
    some { stabilityScore := 50
           classification := { type := .stable, confidence := 1/2 }
           summary := "No data available yet. Start recording to see insights."
           anomalies := []
           correlations := [] }
  else
    let baseline := calculateBaseline sessions
    let recentSessions := recentWindowDesc now sessions
    match recentSessions with
    | [] => none
    | latest :: _ =>
      let trend := detectTrend now sessions 7
      let classification := classifyStability latest.stats.variability baseline trend
      let variabilityQuot := ratioOf latest.stats.variability baseline
      let stabilityScore := max 0 (min 100 (100 - (variabilityQuot - 1) * 50))
      let anomalyIndices := detectAnomalies sq latest.magnitude 2
      let anomalies :=
        if (anomalyIndices.length : Rat) > (latest.magnitude.length : Rat) * (1/10) then
          ["Unusual motion patterns detected in recent recording"]
        else []
      let summaries :=
        (if trend = Trend.increasing then
          ["Your motion variability has increased slightly over the past week."]
        else if trend = Trend.decreasing then
          ["Your motion variability has decreased, showing improved stability."]
        else ["Your motion patterns have remained relatively stable."])
        ++
        (if recentSessions.length > 0 then
          (if averageVariability recentSessions > baseline * (12/10) then
            ["Recent recordings show higher variability compared to your baseline."]
          else [])
        else [])
      let caffeineSessions := sessions.filter fun s => ctxCaffeine s
      let noCaffeineSessions := sessions.filter fun s => !ctxCaffeine s
      let stressSessions := sessions.filter fun s => ctxStress s
      let noStressSessions := sessions.filter fun s => !ctxStress s
      let correlations :=
        contextCorrelation "Caffeine" "Sessions with caffeine"
          caffeineSessions noCaffeineSessions
        ++ contextCorrelation "Stress" "Sessions marked as stressful"
          stressSessions noStressSessions
      some { stabilityScore := jsRound stabilityScore
             classification := classification
             summary := String.intercalate " " summaries
             anomalies := anomalies
             correlations := correlations }

/-! ## storage.ts: `loadSettings`

The persistence layer's IO (AsyncStorage / in-memory fallback, JSON
parsing) is modelled by its outcome: either nothing is stored (`getItem`
returned null or an empty string), the stored string fails `JSON.parse`,
or parsing produced an object in which each settings field is either
absent or holds some value.  TS merges with the spread
`{ ...DEFAULT_SETTINGS, ...settings }`, so a present field overrides the
default verbatim, with no validation of its value; field values are
therefore modelled as raw strings / rationals, not as the enumerated types. -/

/-- The loaded settings value (`AppSettings` with raw, unvalidated field values). -/
structure AppSettings where
  samplingRate : String
  recordingDuration : Rat
  theme : String
deriving DecidableEq

/-- `DEFAULT_SETTINGS` from `storage.ts`. -/
def DEFAULT_SETTINGS : AppSettings :=
  { samplingRate := "medium", recordingDuration := 10, theme := "dark" }

/-- The fields a parsed settings object actually carries (`none` = absent key). -/
structure SettingsPatch where
  samplingRate : Option String
  recordingDuration : Option Rat
  theme : Option String
deriving DecidableEq

/-- Outcome of reading and parsing the stored settings string. -/
inductive StoredSettings where
  | absent
  | corrupt
  | parsed (p : SettingsPatch)
deriving DecidableEq

/-- `loadSettings`: no data or a parse error yields `DEFAULT_SETTINGS`;
otherwise the spread merge `{ ...DEFAULT_SETTINGS, ...settings }`:
each present field overrides its default verbatim. -/
def loadSettings : StoredSettings → AppSettings
  | .absent => DEFAULT_SETTINGS
  | .corrupt => DEFAULT_SETTINGS
  | .parsed p =>
    { samplingRate := p.samplingRate.getD DEFAULT_SETTINGS.samplingRate
      recordingDuration := p.recordingDuration.getD DEFAULT_SETTINGS.recordingDuration
      theme := p.theme.getD DEFAULT_SETTINGS.theme }

/-- The recognized values of the `samplingRate` union type `low | medium | high`. -/
def samplingRateValues : List String := ["low", "medium", "high"]

/-! ## useSensors.ts / useRecording.ts: the recording state machine

The two hooks' persistent mutable state that the stop-recording flow
touches: the `isRecording` flag, the in-memory readings buffer
(`readingsRef.current`), the error message, and the recording start time
(`startTimeRef.current`).  UI-only state (countdown, progress) is omitted.
React's behavior is modelled as explicit steps: `stopRecording` is the
synchronous/awaited body of the callback, and `sensorsEffect` is the body
of the `useSensors` effect that runs on the re-render after `isRecording`
changes (with `enabled = st.isRecording`). -/

/-- One `{x, y, z}` sample. -/
structure Vec3 where
  x : Rat
  y : Rat
  z : Rat
deriving DecidableEq

/-- A buffered `SensorReading` from `useSensors.ts`. -/
structure SensorReading where
  accelerometer : Vec3
  gyroscope : Vec3
  timestamp : Int
deriving DecidableEq

/-- The mutable state of the recording flow. -/
structure RecordingState where
  isRecording : Bool
  readings : List SensorReading
  error : Option String
  startTime : Option Int
deriving DecidableEq

/-- `stopRecording` from `useRecording.ts`.  `saveOk` is the outcome of
`await saveSession(session)` (false = both the primary store and its
in-memory fallback threw, so the await rejects); `nowMs` is `Date.now()`
and `randomId` the `Math.random().toString(36).substr(2, 9)` suffix.
`timestamp: startTimeRef.current || Date.now()` treats a stored 0 as
falsy, exactly as JS `||` does.  Returns the post-call state and the
session handed back to the caller (`null` is `none`). -/
def stopRecording (sq : Rat → Rat) (saveOk : Bool) (nowMs : Int) (randomId : String)
    (duration : Rat) (context : Option RecordingContext) (st : RecordingState) :
    RecordingState × Option RecordingSession :=
  let st := { st with isRecording := false }
  let allReadings := st.readings
  if allReadings.length = 0 then
    ({ st with error := some "No data collected" }, none)
  else
    let accelerometer : SensorData :=
      { x := allReadings.map fun r => r.accelerometer.x
        y := allReadings.map fun r => r.accelerometer.y
        z := allReadings.map fun r => r.accelerometer.z }
    let gyroscope : SensorData :=
      { x := allReadings.map fun r => r.gyroscope.x
        y := allReadings.map fun r => r.gyroscope.y
        z := allReadings.map fun r => r.gyroscope.z }
    let magnitude := calculateMagnitudeArray sq accelerometer
    let stats := calculateStats sq magnitude
    let session : RecordingSession :=
      { id := "session_" ++ toString nowMs ++ "_" ++ randomId
        timestamp :=
          match st.startTime with
          | some t => if t = 0 then nowMs else t
          | none => nowMs
        duration := duration
        accelerometer := accelerometer
        gyroscope := gyroscope
        magnitude := magnitude
        stats := stats
        context := context }
    if saveOk then
      ({ st with readings := [], startTime := none }, some session)
    else
      ({ st with error := some "Failed to save session" }, none)

/-- The body of the `useSensors` effect (`useSensors.ts` lines 39–44) as it
runs on the re-render after `isRecording` changed: when `enabled` (wired to
`isRecording`) is false it clears `readingsRef.current` and the mirrored
state before returning early. -/
def sensorsEffect (st : RecordingState) : RecordingState :=
  if st.isRecording then st else { st with readings := [] }

/-! ## Example data used by concrete instances -/

/-- A minimal session with a given timestamp and variability. -/
def exSession (ts : Int) (v : Rat) : RecordingSession :=
  { id := "s"
    timestamp := ts
    duration := 10
    accelerometer := ⟨[], [], []⟩
    gyroscope := ⟨[], [], []⟩
    magnitude := []
    stats := { meanAmplitude := 0, variability := v, peakAmplitude := 0 }
    context := none }

/-- A session flagged `caffeine: true`. -/
def exSessionCaffeine (ts : Int) (v : Rat) : RecordingSession :=
  { exSession ts v with context := some ⟨some true, none, none, none⟩ }

/-- Milliseconds in 7 days, the recency window of the analyzer. -/
def sevenDaysMs : Int := 7 * 24 * 60 * 60 * 1000

/-! ## Claims -/

/-- C1: the claim states that `generateTrendAnalysis` returns a
`TrendAnalysis` for every non-empty history, in particular when no session
falls within the last 7 days.  The code violates it: with a single session
older than 7 days the recency-filtered list is empty, `recentSessions[0]`
is `undefined`, and `latest.stats.variability` throws an uncaught
`TypeError` (the embedding's `none`). -/
theorem C1_stale_history_fault :
    [exSession 0 1] ≠ [] ∧
    generateTrendAnalysis id (sevenDaysMs + 1) [exSession 0 1] = none := by
  constructor
  · with_unfolding_all decide
  · with_unfolding_all decide

/-- The recording-flow state right before a stop: recording in progress,
one buffered reading, no error. -/
def c2state : RecordingState :=
  { isRecording := true
    readings := [{ accelerometer := ⟨1, 2, 3⟩, gyroscope := ⟨4, 5, 6⟩, timestamp := 50 }]
    error := none
    startTime := some 100 }

/-- C2: the claim states that after a failed persist the caller is informed,
no session is returned, and the readings buffer survives for a retry.  The
first two parts hold, and `stopRecording` itself indeed does not clear the
buffer on failure — but `stopRecording` begins with `setIsRecording(false)`,
so on the following render the `useSensors` effect takes its `!enabled`
branch (`useSensors.ts` lines 39–44) and wipes `readingsRef.current`
regardless of the save outcome: the readings do not remain available. -/
theorem C2_save_failure_loses_buffer :
    (stopRecording id false 1000 "abcdefghi" 10 none c2state).2 = none ∧
    (stopRecording id false 1000 "abcdefghi" 10 none c2state).1.error =
      some "Failed to save session" ∧
    (stopRecording id false 1000 "abcdefghi" 10 none c2state).1.readings =
      c2state.readings ∧
    c2state.readings ≠ [] ∧
    (sensorsEffect (stopRecording id false 1000 "abcdefghi" 10 none c2state).1).readings
      = [] := by
  refine ⟨?_, ?_, ?_, ?_, ?_⟩ <;> with_unfolding_all decide

/-- C3 counterexample: the claim states that a stored field holding an
unrecognized value is replaced by its default on load.  The code merges with
the spread `{ ...DEFAULT_SETTINGS, ...settings }` and performs no
validation: a stored `samplingRate` of `"turbo"` is not one of the
recognized values, yet `loadSettings` returns it verbatim instead of the
default `"medium"`. -/
theorem C3_unrecognized_value_kept :
    (loadSettings (.parsed ⟨some "turbo", none, none⟩)).samplingRate = "turbo" ∧
    "turbo" ∉ samplingRateValues ∧
    (loadSettings (.parsed ⟨some "turbo", none, none⟩)).samplingRate ≠
      DEFAULT_SETTINGS.samplingRate := by
  refine ⟨rfl, ?_, ?_⟩ <;> decide

/-- C3 (amended): `loadSettings` returns each of `samplingRate`,
`recordingDuration` and `theme` equal to the stored value whenever the field
is present — recognized or not, no validation is performed — and equal to
the default (`medium`, 10, `dark`) only when the field is missing; when
nothing is stored or parsing fails, exactly the three defaults are
returned. -/
theorem C3_settings_merge :
    (∀ p : SettingsPatch, loadSettings (.parsed p) =
      { samplingRate := p.samplingRate.getD "medium"
        recordingDuration := p.recordingDuration.getD 10
        theme := p.theme.getD "dark" }) ∧
    loadSettings .absent = DEFAULT_SETTINGS ∧
    loadSettings .corrupt = DEFAULT_SETTINGS :=
  ⟨fun _ => rfl, rfl, rfl⟩

/-- C4: `classifyStability` evaluates its rules first-match-wins over
`ratio = v / b'` (`b' = 1` when `b = 0`): stable 0.9 for `ratio < 1.1` with
a stable trend, else increasing 0.8 for `ratio > 1.5` or an increasing
trend, else variable 0.7 for `ratio > 1.2`, else irregular 0.6. -/
theorem C4_classifyStability_rules (v b : Rat) (t : Trend) :
    (ratioOf v b < 11/10 ∧ t = .stable →
      classifyStability v b t = { type := .stable, confidence := 9/10 }) ∧
    (¬(ratioOf v b < 11/10 ∧ t = .stable) →
      (ratioOf v b > 3/2 ∨ t = .increasing) →
      classifyStability v b t = { type := .increasing, confidence := 8/10 }) ∧
    (¬(ratioOf v b < 11/10 ∧ t = .stable) →
      ¬(ratioOf v b > 3/2 ∨ t = .increasing) → ratioOf v b > 6/5 →
      classifyStability v b t = { type := .variable', confidence := 7/10 }) ∧
    (¬(ratioOf v b < 11/10 ∧ t = .stable) →
      ¬(ratioOf v b > 3/2 ∨ t = .increasing) → ¬(ratioOf v b > 6/5) →
      classifyStability v b t = { type := .irregular, confidence := 6/10 }) := by
  refine ⟨fun h => ?_, fun hn h => ?_, fun hn hn2 h => ?_, fun hn hn2 hn3 => ?_⟩ <;>
    unfold classifyStability
  · rw [if_pos h]
  · rw [if_neg hn, if_pos h]
  · rw [if_neg hn, if_neg hn2, if_pos h]
  · rw [if_neg hn, if_neg hn2, if_neg hn3]

/-- C4 witness: ratio 1 with a stable trend classifies as stable, confidence 0.9. -/
theorem C4_classifyStability_rules_w :
    classifyStability 1 1 .stable = { type := .stable, confidence := 9/10 } :=
  (C4_classifyStability_rules 1 1 .stable).1 ⟨by with_unfolding_all decide, rfl⟩

/-- Average in the JS style `reduce((sum, v) => sum + v, 0) / length`. -/
def avgRat (l : List Rat) : Rat := sumRat l / l.length

/-- The recent-window variabilities, time-ascending, that `detectTrend` trends over. -/
def recentVariabilities (now : Int) (sessions : List RecordingSession) : List Rat :=
  (recentWindowAsc now 7 sessions).map fun s => s.stats.variability

/-- First contiguous half of a series, split at `floor(n/2)`. -/
def firstHalfOf (l : List Rat) : List Rat := l.take (l.length / 2)

/-- Second contiguous half of a series, split at `floor(n/2)`. -/
def secondHalfOf (l : List Rat) : List Rat := l.drop (l.length / 2)

/-- Modelled from the spec: "relative change > +15% → increasing,
< −15% → decreasing, else stable". -/
def trendOfChange (change : Rat) : Trend :=
  if change > 15/100 then .increasing
  else if change < -(15/100) then .decreasing
  else .stable

/-- C5: `detectTrend` returns stable for fewer than 3 sessions (globally or
within the 7-day window); otherwise it splits the time-ascending recent
variabilities into two contiguous halves at `floor(n/2)` — the halves
reassemble the series, the first has `floor(n/2)` elements, the second the
remaining (larger for odd `n`) — and classifies the relative change of the
second-half average over the first-half average against ±15%. -/
theorem C5_detectTrend_halves (now : Int) (sessions : List RecordingSession) :
    (sessions.length < 3 → detectTrend now sessions 7 = .stable) ∧
    ((recentWindowAsc now 7 sessions).length < 3 → detectTrend now sessions 7 = .stable) ∧
    firstHalfOf (recentVariabilities now sessions) ++
      secondHalfOf (recentVariabilities now sessions) = recentVariabilities now sessions ∧
    (firstHalfOf (recentVariabilities now sessions)).length =
      (recentVariabilities now sessions).length / 2 ∧
    (secondHalfOf (recentVariabilities now sessions)).length =
      (recentVariabilities now sessions).length -
        (recentVariabilities now sessions).length / 2 ∧
    (3 ≤ sessions.length → 3 ≤ (recentWindowAsc now 7 sessions).length →
      avgRat (firstHalfOf (recentVariabilities now sessions)) ≠ 0 →
      detectTrend now sessions 7 = trendOfChange
        ((avgRat (secondHalfOf (recentVariabilities now sessions)) -
          avgRat (firstHalfOf (recentVariabilities now sessions))) /
          avgRat (firstHalfOf (recentVariabilities now sessions)))) := by
  refine ⟨?_, ?_, List.take_append_drop _ _, ?_, ?_, ?_⟩
  · intro h; unfold detectTrend; rw [if_pos h]
  · intro h
    simp only [detectTrend]
    split_ifs <;> first | rfl | omega
  · simp [firstHalfOf, recentVariabilities, Nat.min_eq_left (Nat.div_le_self _ _)]
  · simp [secondHalfOf, recentVariabilities]
  · intro h3 h3r havg
    simp only [detectTrend]
    rw [if_neg (by omega), if_neg (by omega)]
    rw [if_neg ?hz]
    case hz =>
      simpa [avgRat, firstHalfOf, recentVariabilities, sumRat] using havg
    simp only [trendOfChange, avgRat, firstHalfOf, secondHalfOf, recentVariabilities, sumRat]

/-- C5 witness: four recent sessions with variabilities 1, 1, 2, 2 give
first-half average 1, second-half average 2, relative change +100% > +15%,
hence an increasing trend. -/
theorem C5_detectTrend_halves_w :
    detectTrend 10 [exSession 1 1, exSession 2 1, exSession 3 2, exSession 4 2] 7 =
      .increasing := by
  have h := (C5_detectTrend_halves 10
    [exSession 1 1, exSession 2 1, exSession 3 2, exSession 4 2]).2.2.2.2.2
    (by with_unfolding_all decide) (by with_unfolding_all decide)
    (by with_unfolding_all decide)
  rw [h]
  with_unfolding_all decide

/-- Modelled from the spec: "baseline = median of all sessions' variability
(median over an even-length list = average of the two middle values after
ascending sort)" — the middle element of the ascending sort for an odd
count, the average of the two middle elements for an even count. -/
def medianSpec (l : List Rat) : Rat :=
  let sorted := l.mergeSort (· ≤ ·)
  if sorted.length % 2 = 1 then sorted.getD (sorted.length / 2) 0
  else (sorted.getD (sorted.length / 2 - 1) 0 + sorted.getD (sorted.length / 2) 0) / 2

/-- Four sessions whose variabilities are 1, 2, 3, 4. -/
def c6even : List RecordingSession :=
  [exSession 0 1, exSession 1 2, exSession 2 3, exSession 3 4]

/-- Three sessions whose variabilities are 1, 2, 3. -/
def c6odd : List RecordingSession :=
  [exSession 0 1, exSession 1 2, exSession 2 3]

/-- C6: on every non-empty history `calculateBaseline` is the median of the
sessions' variabilities — middle element of the ascending sort for an odd
count, average of the two middle elements for an even count — and in
particular variabilities 1, 2, 3, 4 give baseline 2.5 and 1, 2, 3 give 2. -/
theorem C6_calculateBaseline_median :
    (∀ sessions : List RecordingSession, sessions ≠ [] →
      calculateBaseline sessions =
        medianSpec (sessions.map fun s => s.stats.variability)) ∧
    calculateBaseline c6even = 5/2 ∧
    calculateBaseline c6odd = 2 := by
  refine ⟨fun sessions hs => ?_, by with_unfolding_all decide, by with_unfolding_all decide⟩
  simp only [calculateBaseline, medianSpec]
  rw [if_neg (by simpa using hs)]
  rcases Nat.mod_two_eq_zero_or_one sessions.length with h | h <;>
    simp [List.length_mergeSort, List.length_map, h]

/-- C6 witness: the general median characterization applied to the four
sessions with variabilities 1, 2, 3, 4. -/
theorem C6_calculateBaseline_median_w :
    calculateBaseline c6even = medianSpec (c6even.map fun s => s.stats.variability) :=
  C6_calculateBaseline_median.1 c6even (by with_unfolding_all decide)

/-- C7: a correlation entry for a context flag is emitted iff both the
flagged and the unflagged group have more than 2 sessions and the absolute
relative difference of their average variabilities exceeds 10%; the entry
carries impact "negative" when the flagged group's average is higher and
"positive" when lower, and a description citing the rounded percentage.
`generateTrendAnalysis`'s correlation list is exactly this computation for
Caffeine followed by Stress.  The hypothesis `0 < averageVariability
unflagged` holds for any real history (variabilities are standard
deviations, hence nonnegative) and is what makes "relative difference"
well defined. -/
theorem C7_contextCorrelation_gate (tag descPre : String)
    (flagged unflagged : List RecordingSession)
    (hpos : 0 < averageVariability unflagged) :
    (contextCorrelation tag descPre flagged unflagged ≠ [] ↔
      2 < flagged.length ∧ 2 < unflagged.length ∧
      |(averageVariability flagged - averageVariability unflagged) /
        averageVariability unflagged| > 1/10) ∧
    (2 < flagged.length → 2 < unflagged.length →
      |(averageVariability flagged - averageVariability unflagged) /
        averageVariability unflagged| > 1/10 →
      contextCorrelation tag descPre flagged unflagged =
        [{ context := tag
           impact := if averageVariability unflagged < averageVariability flagged
             then "negative" else "positive"
           description := descPre ++ " show " ++
             toString (jsRound
               |(averageVariability flagged - averageVariability unflagged) /
                 averageVariability unflagged * 100|) ++ "% " ++
             (if averageVariability unflagged < averageVariability flagged
               then "higher" else "lower") ++ " variability." }]) ∧
    (∀ (sq : Rat → Rat) (now : Int) (sessions : List RecordingSession)
      (ta : TrendAnalysis),
      generateTrendAnalysis sq now sessions = some ta →
      ta.correlations =
        contextCorrelation "Caffeine" "Sessions with caffeine"
          (sessions.filter fun s => ctxCaffeine s)
          (sessions.filter fun s => !ctxCaffeine s) ++
        contextCorrelation "Stress" "Sessions marked as stressful"
          (sessions.filter fun s => ctxStress s)
          (sessions.filter fun s => !ctxStress s)) := by
  have hiff : (averageVariability flagged - averageVariability unflagged) /
      averageVariability unflagged > 0 ↔
      averageVariability unflagged < averageVariability flagged := by
    rw [gt_iff_lt, lt_div_iff₀ hpos, zero_mul, sub_pos]
  refine ⟨?_, fun hg1 hg2 hd => ?_, ?_⟩
  · by_cases hg1 : 2 < flagged.length <;> by_cases hg2 : 2 < unflagged.length <;>
      by_cases hd : |(averageVariability flagged - averageVariability unflagged) /
        averageVariability unflagged| > 1/10 <;>
      simp [contextCorrelation, hg1, hg2, hd, hpos.ne']
  · simp only [contextCorrelation, if_pos (And.intro hg1 hg2), if_neg hpos.ne',
      if_pos hd]
    simp only [hiff]
  · intro sq now sessions ta h
    by_cases h0 : sessions.length = 0
    · have hsess : sessions = [] := List.length_eq_zero.mp h0
      subst hsess
      have he : generateTrendAnalysis sq now [] = some
          { stabilityScore := 50
            classification := { type := .stable, confidence := 1/2 }
            summary := "No data available yet. Start recording to see insights."
            anomalies := []
            correlations := [] } := rfl
      rw [he, Option.some.injEq] at h
      subst h
      with_unfolding_all decide
    · cases hrec : recentWindowDesc now sessions with
      | nil =>
        rw [generateTrendAnalysis.eq_def, if_neg h0] at h
        simp only [hrec] at h
        exact absurd h (by simp)
      | cons latest rest =>
        rw [generateTrendAnalysis.eq_def, if_neg h0] at h
        simp only [hrec, Option.some.injEq] at h
        subst h
        rfl

/-- Five sessions with variability 15 (the caffeine-flagged group of the
spec's scenario). -/
def c7flagged : List RecordingSession := List.replicate 5 (exSessionCaffeine 0 15)

/-- Five sessions with variability 10 (the non-caffeine group of the
spec's scenario). -/
def c7unflagged : List RecordingSession := List.replicate 5 (exSession 0 10)

/-- C7 witness: 5 caffeine sessions averaging 15 against 5 non-caffeine
sessions averaging 10 give a relative difference of +50% and hence a
"negative" entry citing "50% higher variability." -/
theorem C7_contextCorrelation_gate_w :
    contextCorrelation "Caffeine" "Sessions with caffeine" c7flagged c7unflagged =
      [{ context := "Caffeine", impact := "negative",
         description := "Sessions with caffeine show 50% higher variability." }] := by
  have h := (C7_contextCorrelation_gate "Caffeine" "Sessions with caffeine"
    c7flagged c7unflagged (by with_unfolding_all decide)).2.1
    (by with_unfolding_all decide) (by with_unfolding_all decide)
    (by with_unfolding_all decide)
  rw [h]
  with_unfolding_all decide

/-- C8: when the 7-day window is non-empty, the reported `stabilityScore`
is `round(clamp(0, 100, 100 - (v/b' - 1) * 50))` for `v` the variability of
the latest recent session (head of the descending-sorted window) and
`b' = calculateBaseline` of the whole history (1 when the baseline is 0). -/
theorem C8_stabilityScore (sq : Rat → Rat) (now : Int)
    (sessions rest : List RecordingSession) (ta : TrendAnalysis)
    (latest : RecordingSession)
    (hrec : recentWindowDesc now sessions = latest :: rest)
    (hta : generateTrendAnalysis sq now sessions = some ta) :
    ta.stabilityScore = jsRound (max 0 (min 100
      (100 - (ratioOf latest.stats.variability (calculateBaseline sessions) - 1) * 50))) := by
  have h0 : ¬sessions.length = 0 := by
    intro h0
    rw [List.length_eq_zero.mp h0] at hrec
    have hnil : recentWindowDesc now [] = [] := by simp [recentWindowDesc]
    exact List.noConfusion (hnil ▸ hrec)
  rw [generateTrendAnalysis.eq_def, if_neg h0] at hta
  simp only [hrec, Option.some.injEq] at hta
  subst hta
  rfl

/-- Three sessions with variabilities 10, 10, 20 at successive timestamps:
baseline (median) 10, latest variability 20, ratio 2. -/
def c8sessions : List RecordingSession :=
  [exSession 0 10, exSession 1 10, exSession 2 20]

/-- The analysis report for `c8sessions` at `now = 2`. -/
def c8ta : TrendAnalysis :=
  { stabilityScore := 50
    classification := { type := .increasing, confidence := 8/10 }
    summary := "Your motion variability has increased slightly over the past week. Recent recordings show higher variability compared to your baseline."
    anomalies := []
    correlations := [] }

/-- C8 witness: latest variability 20 against baseline 10 gives ratio 2.0
and score `clamp(0, 100, 100 - (2 - 1) * 50) = 50`. -/
theorem C8_stabilityScore_w :
    generateTrendAnalysis id 2 c8sessions = some c8ta ∧ c8ta.stabilityScore = 50 := by
  have h1 : recentWindowDesc 2 c8sessions =
      exSession 2 20 :: [exSession 1 10, exSession 0 10] := by
    with_unfolding_all decide
  have h2 : generateTrendAnalysis id 2 c8sessions = some c8ta := by
    with_unfolding_all decide
  refine ⟨h2, ?_⟩
  rw [C8_stabilityScore id 2 c8sessions [exSession 1 10, exSession 0 10] c8ta
    (exSession 2 20) h1 h2]
  with_unfolding_all decide

/-- C9: `smoothData` is the identity when the window covers the whole
series, always preserves the length, and otherwise each output element `i`
is the average of the input elements from `max(0, i - floor(w/2))` through
`min(length - 1, i + floor(w/2))`, divided by the number of points actually
in that clipped window. -/
theorem C9_smoothData_window (data : List Rat) (w : Nat) (hw : 1 ≤ w) :
    (data.length ≤ w → smoothData data w = data) ∧
    (smoothData data w).length = data.length ∧
    (w < data.length → ∀ i, i < data.length →
      (smoothData data w).getD i 0 =
        sumRat ((data.drop (i - w / 2)).take
            (min (data.length - 1) (i + w / 2) + 1 - (i - w / 2))) /
          ((data.drop (i - w / 2)).take
            (min (data.length - 1) (i + w / 2) + 1 - (i - w / 2))).length) := by
  refine ⟨fun h => ?_, ?_, fun hlt i hi => ?_⟩
  · unfold smoothData
    split_ifs with h1 h2
    all_goals first
    | exact (List.length_eq_zero.mp h1).symm
    | rfl
    | omega
  · unfold smoothData
    split_ifs with h1 h2
    all_goals first
    | simp [List.length_eq_zero.mp h1]
    | rfl
    | simp
  · simp only [smoothData]
    rw [if_neg (by omega), if_neg (by omega)]
    rw [List.getD_eq_getElem?_getD, List.getElem?_map, List.getElem?_range hi]
    have hmin : min data.length (i + w / 2 + 1) =
        min (data.length - 1) (i + w / 2) + 1 := by omega
    simp only [Option.map_some', Option.getD_some, hmin]

/-- C9 witness: window 2 on a 4-element series keeps the length 4, and the
first output element averages the two available points `1, 2`. -/
theorem C9_smoothData_window_w :
    (smoothData [(1:Rat), 2, 3, 4] 2).length = 4 ∧
    (smoothData [(1:Rat), 2, 3, 4] 2).getD 0 0 = 3/2 := by
  constructor
  · rw [(C9_smoothData_window [(1:Rat), 2, 3, 4] 2 (by decide)).2.1]
    rfl
  · rw [(C9_smoothData_window [(1:Rat), 2, 3, 4] 2 (by decide)).2.2
      (by decide) 0 (by decide)]
    with_unfolding_all decide

/-- A left fold of addition over a constant list. -/
theorem foldl_add_const (c : Rat) :
    ∀ (l : List Rat) (a : Rat), (∀ x ∈ l, x = c) →
      l.foldl (· + ·) a = a + l.length * c := by
  intro l
  induction l with
  | nil => intro a _; simp
  | cons x xs ih =>
    intro a h
    have hx : x = c := h x (by simp)
    have hxs : ∀ y ∈ xs, y = c := fun y hy => h y (by simp [hy])
    rw [List.foldl_cons, ih (a + x) hxs, hx]
    simp only [List.length_cons]
    push_cast
    ring

/-- `sumRat` of a constant list. -/
theorem sumRat_const (l : List Rat) (c : Rat) (h : ∀ x ∈ l, x = c) :
    sumRat l = l.length * c := by
  simpa using foldl_add_const c l 0 h

/-- C10: on a constant series (all elements equal — equivalently, population
standard deviation 0) every element equals the mean, the z-score numerator
is 0, and the JS comparison `|0 / stdDev| > threshold` is false for every
threshold ≥ 0 whether `stdDev` is 0 (NaN) or not, so `detectAnomalies`
returns no indices — for any interpretation of `Math.sqrt`. -/
theorem C10_detectAnomalies_constant (sq : Rat → Rat) (magnitude : List Rat)
    (c threshold : Rat) (hconst : ∀ x ∈ magnitude, x = c) (ht : 0 ≤ threshold) :
    detectAnomalies sq magnitude threshold = [] := by
  simp only [detectAnomalies]
  split_ifs with h0
  · rfl
  · have hn : (magnitude.length : Rat) ≠ 0 := by
      simpa using h0
    have hmean : sumRat magnitude / (magnitude.length : Rat) = c := by
      rw [sumRat_const magnitude c hconst]
      field_simp
    have hfilter : (magnitude.enum.filter fun p =>
        jsAbsDivGt (p.2 - sumRat magnitude / magnitude.length)
          (calculateVariability sq magnitude) threshold) = [] := by
      rw [List.filter_eq_nil_iff]
      intro p hp
      have hp2 : p.2 ∈ magnitude := by
        rw [← List.enum_map_snd magnitude]
        exact List.mem_map_of_mem _ hp
      rw [hmean, hconst _ hp2]
      simp only [jsAbsDivGt, sub_self]
      split_ifs <;> simp [not_lt.mpr ht, abs_nonneg]
    rw [hfilter]
    rfl

/-- C10 witness: the constant series `[2, 2, 2]` with threshold 0 has no
anomalies. -/
theorem C10_detectAnomalies_constant_w :
    detectAnomalies id [(2:Rat), 2, 2] 0 = [] :=
  C10_detectAnomalies_constant id [(2:Rat), 2, 2] 2 0
    (by with_unfolding_all decide) (by with_unfolding_all decide)

end Tremor
